import Mathlib

set_option maxRecDepth 10000

/-!
Shallow embedding of `src/relayer.py` (an HTTP ingestion relay that validates
a sensor reading, optionally pins it to a content store, and commits it to a
smart contract).  External collaborators (the Pinata HTTP API and the
blockchain node reached through web3) are modelled by an environment `Env`
recording the outcome each external call would produce; the handler is a pure
function of the request body and that environment, returning the HTTP response
together with the trace of pipeline actions it performed.

Python floats originate here from JSON decimal literals and are modelled as
exact decimals `Dec` (an integer mantissa over a power of ten); Python's
builtin one-argument `round` (round-half-to-even) is embedded as `pyRound`.
-/

deriving instance DecidableEq for Except

namespace Relayer

/-- Exact decimal number `m / 10 ^ e`, the model of a Python float parsed
from a JSON decimal literal. -/
structure Dec where
  m : ℤ
  e : ℕ
deriving DecidableEq

/-- Value of a decimal as a rational. -/
def Dec.toRat (d : Dec) : ℚ := (d.m : ℚ) / (10 : ℚ) ^ d.e

/-- Multiplication of a decimal by ten (the `* 10` of lines 120-121). -/
def Dec.mulTen (d : Dec) : Dec := ⟨d.m * 10, d.e⟩

/-- JSON values as produced by `await req.json()`.  A JSON number without a
fraction parses to a Python `int` (`jint`); one with a fraction parses to a
Python `float`, carried as the exact decimal written on the wire (`jfloat`).
Objects and arrays are opaque: the handler never looks inside a nested
value. -/
inductive JValue where
  | jstr (s : String)
  | jint (n : ℤ)
  | jfloat (d : Dec)
  | jbool (b : Bool)
  | jnull
  | jobj
  | jarr
deriving DecidableEq

/-- A JSON object body: association list of fields. -/
def JObj : Type := List (String × JValue)

/-- Field access `data.get(k)` / the test `k in data` on the parsed body. -/
def lookupField (data : JObj) (k : String) : Option JValue :=
  (List.find? (fun p => p.1 == k) data).map (fun p => p.2)

/-- Digits of a decimal literal to a natural number; `none` if a non-digit
appears. -/
def digitsToNat (cs : List Char) : Option ℕ :=
  List.foldlM
    (fun acc c => if c.isDigit then some (acc * 10 + (c.toNat - 48)) else none)
    0 cs

/-- Strip a leading sign, returning whether it was a minus. -/
def splitSign : List Char → Bool × List Char
  | '-' :: cs => (true, cs)
  | '+' :: cs => (false, cs)
  | cs => (false, cs)

/-- Unsigned decimal literal `digits[.digits]` as an exact decimal (the
fragment of the grammar accepted by Python `float(str)` relevant here;
exponents, whitespace, underscores and inf/nan are outside the claims
considered). -/
def parseUnsignedDecimal (cs : List Char) : Option Dec :=
  let ip := List.takeWhile Char.isDigit cs
  let rest := List.dropWhile Char.isDigit cs
  match rest with
  | [] =>
      match digitsToNat ip with
      | some n => if ip.isEmpty then none else some ⟨(n : ℤ), 0⟩
      | none => none
  | '.' :: fracCs =>
      if ip.isEmpty && fracCs.isEmpty then none
      else
        match digitsToNat ip, digitsToNat fracCs with
        | some n, some f =>
            some ⟨(n : ℤ) * (10 : ℤ) ^ fracCs.length + (f : ℤ), fracCs.length⟩
        | _, _ => none
  | _ => none

/-- Python `float(s)` on a string; `none` means `ValueError`. -/
def parsePyFloatStr (s : String) : Option Dec :=
  let sc := splitSign s.toList
  (parseUnsignedDecimal sc.2).map (fun d => if sc.1 then ⟨-d.m, d.e⟩ else d)

/-- Python `int(s)` on a string: sign plus digits only, so `int("1700.5")`
raises (`none`). -/
def parsePyIntStr (s : String) : Option ℤ :=
  let sc := splitSign s.toList
  if sc.2.isEmpty then none
  else
    match digitsToNat sc.2 with
    | some n => some (if sc.1 then -(n : ℤ) else (n : ℤ))
    | none => none

/-- Truncation toward zero, the behaviour of Python `int(float)`. -/
def truncToZero (d : Dec) : ℤ :=
  let p : ℤ := (10 : ℤ) ^ d.e
  if 0 ≤ d.m then Int.fdiv d.m p else -Int.fdiv (-d.m) p

/-- Python `float(v)` on a JSON value (`relayer.py` lines 113-114);
`none` means `ValueError`/`TypeError`, caught into a 400. -/
def pyFloat : JValue → Option Dec
  | .jint n => some ⟨n, 0⟩
  | .jfloat d => some d
  | .jbool b => some ⟨if b then 1 else 0, 0⟩
  | .jstr s => parsePyFloatStr s
  | _ => none

/-- Python `int(v)` on a JSON value (`relayer.py` line 115). -/
def pyInt : JValue → Option ℤ
  | .jint n => some n
  | .jfloat d => some (truncToZero d)
  | .jbool b => some (if b then 1 else 0)
  | .jstr s => parsePyIntStr s
  | _ => none

/-- Python builtin one-argument `round` on a decimal: nearest integer, ties
to the even one (banker's rounding). -/
def pyRound (d : Dec) : ℤ :=
  let p : ℤ := (10 : ℤ) ^ d.e
  let f := Int.fdiv d.m p
  let r := Int.fmod d.m p
  if 2 * r < p then f
  else if p < 2 * r then f + 1
  else if f % 2 = 0 then f else f + 1

/-- Scaling `int(round(x * 10))` of lines 120-121 (`int` of an `int` is the
identity).  It performs no range check. -/
def scaleTimes10 (x : Dec) : ℤ := pyRound x.mulTen

/-- Solidity `int16` range accepted by the ABI encoder. -/
def int16Ok (z : ℤ) : Bool := decide (-32768 ≤ z) && decide (z ≤ 32767)

/-- Solidity `uint16` range accepted by the ABI encoder. -/
def uint16Ok (z : ℤ) : Bool := decide (0 ≤ z) && decide (z ≤ 65535)

/-- Solidity `uint256` range accepted by the ABI encoder. -/
def uint256Ok (z : ℤ) : Bool := decide (0 ≤ z) && decide (z < 2 ^ 256)

/-- ABI encoding of `storeReading(string,int16,uint16,uint256)` succeeds
exactly when the device id is a string and each integer fits its declared
width (behaviour of the external web3 encoder on the ABI of lines 32-45). -/
def abiEncodeOk (deviceId : JValue) (t h ts : ℤ) : Bool :=
  (match deviceId with | .jstr _ => true | _ => false)
    && int16Ok t && uint16Ok h && uint256Ok ts

/-- One pipeline action, in the order the handler performs them:
`pinataUpload` records the JSON payload posted; `buildTx` records the
`storeReading` call arguments. -/
inductive Action where
  | pinataUpload (payload : List (String × JValue))
  | getNonce
  | getGasPrice
  | buildTx (deviceId : JValue) (t h ts : ℤ)
  | signTx
  | sendRawTx
  | waitReceipt
deriving DecidableEq

/-- Outcomes the external world would hand to each call the handler makes.
Field `pinataHttp`: `.error` is a network failure or non-2xx status
(`raise_for_status`), `.ok mcid` a 2xx response whose JSON body has
`IpfsHash = mcid` (possibly absent).  Field `buildExtra` is any further
failure of `build_transaction` beyond the ABI width check. -/
structure Env where
  pinataJwt : Option String
  pinataHttp : Except String (Option String)
  nonce : Except String ℕ
  gasPrice : Except String ℕ
  buildExtra : Option String
  signResult : Except String Unit
  sendResult : Except String String
  receiptBlock : Except String ℕ

/-- HTTP responses of the handler: 200 body `{status:"ok", tx_hash, block,
cid}`, 400 `HTTPException` with `detail`, 500 `HTTPException` with
`detail`. -/
inductive Response where
  | ok (tx_hash : String) (block : ℕ) (cid : String)
  | clientError (detail : String)
  | serverError (detail : String)
deriving DecidableEq

/-- Embeds `subir_a_pinata` (lines 66-90): skip and return `None` when the
JWT is absent or empty; otherwise POST once, returning the body's `IpfsHash`
field on 2xx and `None` on any exception (network failure or
`raise_for_status`). -/
def subir_a_pinata (env : Env) (payload : List (String × JValue)) :
    Option String × List Action :=
  match env.pinataJwt with
  | none => (none, [])
  | some jwt =>
      if jwt = "" then (none, [])
      else
        match env.pinataHttp with
        | .error _ => (none, [.pinataUpload payload])
        | .ok mcid => (mcid, [.pinataUpload payload])

/-- Validation and type conversion, lines 101-117: presence of the three
mandatory fields (each missing one raising its own 400), then
`float`/`float`/`int` conversion in order, any failure raising a single 400;
`device_id` defaults to "unknown-device" and is never checked. -/
def validate (data : JObj) : Except String (JValue × Dec × Dec × ℤ) :=
  let device_id := (lookupField data "device_id").getD (.jstr "unknown-device")
  match lookupField data "temperature" with
  | none => .error "Campo temperature requerido"
  | some tv =>
      match lookupField data "humidity" with
      | none => .error "Campo humidity requerido"
      | some hv =>
          match lookupField data "timestamp_ms" with
          | none => .error "Campo timestamp_ms requerido"
          | some tsv =>
              match pyFloat tv with
              | none => .error "Error en tipos de datos"
              | some t =>
                  match pyFloat hv with
                  | none => .error "Error en tipos de datos"
                  | some h =>
                      match pyInt tsv with
                      | none => .error "Error en tipos de datos"
                      | some ts => .ok (device_id, t, h, ts)

/-- Prefix of every 500 detail (line 181). -/
def errDetail (e : String) : String := "Error al enviar transaccion: " ++ e

/-- Embeds the `try` block of lines 140-182: fetch nonce, read gas price
(evaluated while assembling the transaction dict), ABI-encode and build,
sign, broadcast, wait for the receipt.  The first failure raises, is caught
at line 176 and becomes a 500; success returns the 200 body with the cid
computed earlier. -/
def chainSection (env : Env) (device_id : JValue) (t10 h10 ts : ℤ)
    (cid : String) : Response × List Action :=
  match env.nonce with
  | .error e => (.serverError (errDetail e), [.getNonce])
  | .ok _ =>
      match env.gasPrice with
      | .error e => (.serverError (errDetail e), [.getNonce, .getGasPrice])
      | .ok _ =>
          if abiEncodeOk device_id t10 h10 ts = false then
            (.serverError (errDetail "ABI encoding error"),
              [.getNonce, .getGasPrice, .buildTx device_id t10 h10 ts])
          else
            match env.buildExtra with
            | some e =>
                (.serverError (errDetail e),
                  [.getNonce, .getGasPrice, .buildTx device_id t10 h10 ts])
            | none =>
                match env.signResult with
                | .error e =>
                    (.serverError (errDetail e),
                      [.getNonce, .getGasPrice,
                        .buildTx device_id t10 h10 ts, .signTx])
                | .ok _ =>
                    match env.sendResult with
                    | .error e =>
                        (.serverError (errDetail e),
                          [.getNonce, .getGasPrice,
                            .buildTx device_id t10 h10 ts, .signTx,
                            .sendRawTx])
                    | .ok txh =>
                        match env.receiptBlock with
                        | .error e =>
                            (.serverError (errDetail e),
                              [.getNonce, .getGasPrice,
                                .buildTx device_id t10 h10 ts, .signTx,
                                .sendRawTx, .waitReceipt])
                        | .ok blk =>
                            (.ok txh blk cid,
                              [.getNonce, .getGasPrice,
                                .buildTx device_id t10 h10 ts, .signTx,
                                .sendRawTx, .waitReceipt])

/-- The Pinata payload assembled at lines 124-129. -/
def pinataPayload (device_id : JValue) (t h : Dec) (ts : ℤ) :
    List (String × JValue) :=
  [("device_id", device_id), ("temperature_c", .jfloat t),
    ("humidity_percent", .jfloat h), ("timestamp_ms", .jint ts)]

/-- The handler `recibir_lectura` (lines 93-182) on a parsed JSON object
body: validate, scale, best-effort upload (the `or ""` of line 129 turns a
`None` cid into the empty string), then the chain section.  Returns the
response and the trace of actions performed, in order. -/
def recibir_lectura (env : Env) (data : JObj) : Response × List Action :=
  match validate data with
  | .error d => (.clientError d, [])
  | .ok (device_id, temp_c, hum, timestamp_ms) =>
      let temp_times10 := scaleTimes10 temp_c
      let hum_times10 := scaleTimes10 hum
      let up := subir_a_pinata env (pinataPayload device_id temp_c hum timestamp_ms)
      let cid := up.1.getD ""
      let ch := chainSection env device_id temp_times10 hum_times10 timestamp_ms cid
      (ch.1, up.2 ++ ch.2)

/-- Spec-side characterisation of banker's rounding: `z` is within one half
of `x`, and a distance of exactly one half forces `z` even.  These two
conditions determine `z` uniquely. -/
def IsHalfEvenRound (x : ℚ) (z : ℤ) : Prop :=
  |x - (z : ℚ)| ≤ 1 / 2 ∧ (|x - (z : ℚ)| = 1 / 2 → z % 2 = 0)

/-- The upload is skipped: no credential configured (lines 67-69). -/
def UploadSkipped (env : Env) : Prop :=
  env.pinataJwt = none ∨ env.pinataJwt = some ""

/-- The upload is attempted and fails: network error or non-2xx status. -/
def UploadFailed (env : Env) : Prop :=
  (∃ j, env.pinataJwt = some j ∧ j ≠ "") ∧ ∃ e, env.pinataHttp = Except.error e

/-- The upload succeeds but the 2xx body has no `IpfsHash` field. -/
def UploadNoHashField (env : Env) : Prop :=
  (∃ j, env.pinataJwt = some j ∧ j ≠ "") ∧ env.pinataHttp = Except.ok none

/-- Any of the three situations in which `subir_a_pinata` yields no cid. -/
def UploadDegraded (env : Env) : Prop :=
  UploadSkipped env ∨ UploadFailed env ∨ UploadNoHashField env

/-- All chain interactions succeed, with the given hash and block. -/
def ChainAllOk (env : Env) (txh : String) (blk : ℕ) : Prop :=
  (∃ n, env.nonce = Except.ok n) ∧ (∃ g, env.gasPrice = Except.ok g) ∧
    env.buildExtra = none ∧ env.signResult = Except.ok () ∧
    env.sendResult = Except.ok txh ∧ env.receiptBlock = Except.ok blk

/-- Environment in which every external call succeeds; the fields are, in
order: pinataJwt, pinataHttp, nonce, gasPrice, buildExtra, signResult,
sendResult, receiptBlock. -/
def envAllOk : Env :=
  ⟨some "jwt", Except.ok (some "bafy123"), Except.ok 5, Except.ok 7, none,
    Except.ok (), Except.ok "0xabc", Except.ok 42⟩

/-- Environment with no Pinata credential configured; the chain succeeds. -/
def envNoJwt : Env :=
  ⟨none, Except.ok none, Except.ok 5, Except.ok 7, none,
    Except.ok (), Except.ok "0xabc", Except.ok 42⟩

/-- Environment in which the Pinata POST raises a network error; the chain
succeeds. -/
def envUploadFail : Env :=
  ⟨some "jwt", Except.error "network down", Except.ok 5, Except.ok 7, none,
    Except.ok (), Except.ok "0xabc", Except.ok 42⟩

/-- Environment in which the Pinata POST returns 2xx but the body has no
IpfsHash field; the chain succeeds. -/
def envNoHash : Env :=
  ⟨some "jwt", Except.ok none, Except.ok 5, Except.ok 7, none,
    Except.ok (), Except.ok "0xabc", Except.ok 42⟩

/-- Environment in which the nonce fetch RPC fails. -/
def envNonceFail : Env :=
  ⟨some "jwt", Except.ok (some "bafy123"), Except.error "rpc down",
    Except.ok 7, none, Except.ok (), Except.ok "0xabc", Except.ok 42⟩

/-- Environment in which the node rejects the broadcast (nonce collision). -/
def envSendFail : Env :=
  ⟨none, Except.ok none, Except.ok 5, Except.ok 7, none,
    Except.ok (), Except.error "nonce collision", Except.ok 42⟩

/-- The request body of the end-to-end scenario of the spec. -/
def dataGood : JObj :=
  [("device_id", JValue.jstr "sensor-1"),
    ("temperature", JValue.jfloat ⟨2345, 2⟩),
    ("humidity", JValue.jfloat ⟨602, 1⟩),
    ("timestamp_ms", JValue.jint 1700000000000)]

/-- A body whose timestamp_ms is the non-integer JSON number 1700.5. -/
def dataFloatTs : JObj :=
  [("temperature", JValue.jint 20), ("humidity", JValue.jint 50),
    ("timestamp_ms", JValue.jfloat ⟨17005, 1⟩)]

/-- A body whose timestamp_ms is the numeric string "1700.5". -/
def dataStrTs : JObj :=
  [("temperature", JValue.jint 20), ("humidity", JValue.jint 50),
    ("timestamp_ms", JValue.jstr "1700.5")]

/-- A body whose temperature 5000.0 scales to 50000, outside int16. -/
def dataHotTemp : JObj :=
  [("temperature", JValue.jfloat ⟨5000, 0⟩),
    ("humidity", JValue.jfloat ⟨50, 0⟩),
    ("timestamp_ms", JValue.jint 1)]

/-- A body missing the mandatory temperature field. -/
def dataMissingTemp : JObj :=
  [("humidity", JValue.jint 50), ("timestamp_ms", JValue.jint 3)]

/-- A body whose device_id is a JSON number, not a string. -/
def dataNumDevice : JObj :=
  [("device_id", JValue.jint 7), ("temperature", JValue.jint 20),
    ("humidity", JValue.jint 50), ("timestamp_ms", JValue.jint 3)]

/-- Dyadic number `m / 2 ^ e`: the model of a binary64 float value (every
finite double is such a number). -/
structure Dy where
  m : ℤ
  e : ℕ
deriving DecidableEq

/-- Value of a dyadic as a rational. -/
def Dy.toRat (d : Dy) : ℚ := (d.m : ℚ) / (2 : ℚ) ^ d.e

/-- Round-half-to-even of `n / 2 ^ s` to an integer: floor division by the
power of two, then the remainder decides down, up, or ties-to-even. -/
def rshiftHalfEven (n : ℤ) (s : ℕ) : ℤ :=
  let p : ℤ := 2 ^ s
  let f := Int.fdiv n p
  let r := Int.fmod n p
  if 2 * r < p then f
  else if p < 2 * r then f + 1
  else if f % 2 = 0 then f else f + 1

/-- Python builtin one-argument `round` on a binary64 value (nearest
integer, ties to even). -/
def pyRoundDy (x : Dy) : ℤ := rshiftHalfEven x.m x.e

/-- IEEE-754 binary64 multiplication by ten of a normalized double
(significand magnitude in [2^52, 2^53)): the exact product significand
`m * 10` has 56 or 57 bits and is rounded back to 53 bits with
round-to-nearest, ties-to-even, the IEEE default. -/
def b64MulTen (x : Dy) : Dy :=
  let n := x.m * 10
  if n.natAbs < 2 ^ 56 then ⟨rshiftHalfEven n 3, x.e - 3⟩
  else ⟨rshiftHalfEven n 4, x.e - 4⟩

/-- The binary64-faithful embedding of the scaler `int(round(temp_c * 10))`
of lines 120-121: `temp_c` is a double, `temp_c * 10` is binary64
multiplication (the product is rounded to 53-bit precision), and `round`
then rounds that value half-to-even to an integer. -/
def scaleTimes10B64 (x : Dy) : ℤ := pyRoundDy (b64MulTen x)

/-- D is the strictly nearest binary64 double to x: normalized 53-bit
significand and distance strictly below half an ulp (`2 ^ (-e)` is the ulp),
which determines D uniquely, with no tie to break. -/
def StrictNearestDouble (x : ℚ) (D : Dy) : Prop :=
  2 ^ 52 ≤ D.m.natAbs ∧ D.m.natAbs < 2 ^ 53 ∧
    |x - D.toRat| * (2 : ℚ) ^ (D.e + 1) < 1

/-- The wire decimal 327.05000000000001, an in-range temperature whose
binary64 parse collapses to the double of 327.05. -/
def wireDecimalC6 : Dec := ⟨32705000000000001, 14⟩

/-- The double `float("327.05000000000001") = 5753524445826253 / 2 ^ 44`,
equal to the double of 327.05. -/
def doubleC6 : Dy := ⟨5753524445826253, 44⟩

end Relayer

namespace Relayer

/-- Multiplying a decimal by ten multiplies its rational value by ten. -/
theorem Dec.toRat_mulTen (d : Dec) : d.mulTen.toRat = d.toRat * 10 := by
  unfold Dec.toRat Dec.mulTen
  push_cast
  ring

/-- Core correctness of the banker's-rounding branch structure used by
`pyRound`, stated over an arbitrary floor decomposition `x = f + r / p`. -/
theorem isHalfEvenRound_branches (x : ℚ) (p f r : ℤ)
    (hp : 0 < p) (hr0 : 0 ≤ r) (hrp : r < p)
    (hx : x = (f : ℚ) + (r : ℚ) / (p : ℚ)) :
    IsHalfEvenRound x
      (if 2 * r < p then f
       else if p < 2 * r then f + 1
       else if f % 2 = 0 then f else f + 1) := by
  have hpq : (0 : ℚ) < (p : ℚ) := by exact_mod_cast hp
  have hr0q : (0 : ℚ) ≤ (r : ℚ) := by exact_mod_cast hr0
  have hrpq : (r : ℚ) < (p : ℚ) := by exact_mod_cast hrp
  have hxf : x - (f : ℚ) = (r : ℚ) / (p : ℚ) := by rw [hx]; ring
  have hfrac0 : (0 : ℚ) ≤ (r : ℚ) / (p : ℚ) := div_nonneg hr0q hpq.le
  have hfrac1 : (r : ℚ) / (p : ℚ) < 1 := (div_lt_one hpq).mpr hrpq
  split_ifs with h1 h2 h3
  · -- fractional part strictly below one half
    have hlt : (r : ℚ) / (p : ℚ) < 1 / 2 := by
      rw [div_lt_iff₀ hpq]
      have : (2 * r : ℚ) < (p : ℚ) := by exact_mod_cast h1
      linarith
    constructor
    · rw [hxf, abs_of_nonneg hfrac0]; linarith
    · intro habs
      rw [hxf, abs_of_nonneg hfrac0] at habs
      exact absurd habs (ne_of_lt hlt)
  · -- fractional part strictly above one half
    have hgt : 1 / 2 < (r : ℚ) / (p : ℚ) := by
      rw [lt_div_iff₀ hpq]
      have : (p : ℚ) < (2 * r : ℚ) := by exact_mod_cast h2
      linarith
    have hneg : x - ((f + 1 : ℤ) : ℚ) = (r : ℚ) / (p : ℚ) - 1 := by
      push_cast
      rw [hx]; ring
    have habs : |x - ((f + 1 : ℤ) : ℚ)| = 1 - (r : ℚ) / (p : ℚ) := by
      rw [hneg, abs_of_nonpos (by linarith)]
      ring
    constructor
    · rw [habs]; linarith
    · intro hteq
      rw [habs] at hteq
      have : (r : ℚ) / (p : ℚ) = 1 / 2 := by linarith
      exact absurd this (ne_of_gt hgt)
  · -- exact tie, floor already even
    have htie : 2 * r = p := by omega
    have hhalf : (r : ℚ) / (p : ℚ) = 1 / 2 := by
      rw [div_eq_iff (ne_of_gt hpq)]
      have : (2 * r : ℚ) = (p : ℚ) := by exact_mod_cast htie
      linarith
    constructor
    · rw [hxf, abs_of_nonneg hfrac0, hhalf]
    · intro _
      exact h3
  · -- exact tie, floor odd: round up to the even successor
    have htie : 2 * r = p := by omega
    have hhalf : (r : ℚ) / (p : ℚ) = 1 / 2 := by
      rw [div_eq_iff (ne_of_gt hpq)]
      have : (2 * r : ℚ) = (p : ℚ) := by exact_mod_cast htie
      linarith
    have hneg : x - ((f + 1 : ℤ) : ℚ) = (r : ℚ) / (p : ℚ) - 1 := by
      push_cast
      rw [hx]; ring
    have habs : |x - ((f + 1 : ℤ) : ℚ)| = 1 / 2 := by
      rw [hneg, hhalf]
      norm_num
    constructor
    · rw [habs]
    · intro _
      omega

/-- `pyRound` computes the banker's rounding of the decimal's value. -/
theorem pyRound_isHalfEvenRound (d : Dec) :
    IsHalfEvenRound d.toRat (pyRound d) := by
  obtain ⟨m, e⟩ := d
  have hp : (0 : ℤ) < (10 : ℤ) ^ e := pow_pos (by norm_num) e
  have hsum : (10 : ℤ) ^ e * Int.fdiv m ((10 : ℤ) ^ e)
      + Int.fmod m ((10 : ℤ) ^ e) = m := Int.fdiv_add_fmod m _
  have hr0 : 0 ≤ Int.fmod m ((10 : ℤ) ^ e) := by
    rw [Int.fmod_eq_emod m hp.le]
    exact Int.emod_nonneg m (by positivity)
  have hrp : Int.fmod m ((10 : ℤ) ^ e) < (10 : ℤ) ^ e :=
    Int.fmod_lt_of_pos m hp
  have hpq : (0 : ℚ) < (((10 : ℤ) ^ e : ℤ) : ℚ) := by exact_mod_cast hp
  have hx : Dec.toRat ⟨m, e⟩ = ((Int.fdiv m ((10 : ℤ) ^ e) : ℤ) : ℚ)
      + ((Int.fmod m ((10 : ℤ) ^ e) : ℤ) : ℚ) / (((10 : ℤ) ^ e : ℤ) : ℚ) := by
    unfold Dec.toRat
    have h10 : ((10 : ℚ)) ^ e = (((10 : ℤ) ^ e : ℤ) : ℚ) := by push_cast; ring
    rw [h10, div_eq_iff (ne_of_gt hpq), add_mul,
      div_mul_cancel₀ _ (ne_of_gt hpq)]
    have h2 : (((10 : ℤ) ^ e : ℤ) : ℚ) * ((Int.fdiv m ((10 : ℤ) ^ e) : ℤ) : ℚ)
        + ((Int.fmod m ((10 : ℤ) ^ e) : ℤ) : ℚ) = (m : ℚ) := by
      exact_mod_cast hsum
    linarith
  simp only [pyRound]
  exact isHalfEvenRound_branches _ _ _ _ hp hr0 hrp hx

/-- A degraded upload produces no content identifier, whatever the payload. -/
theorem subir_fst_of_degraded (env : Env)
    (hdeg : UploadDegraded env) (payload : List (String × JValue)) :
    (subir_a_pinata env payload).1 = none := by
  rcases hdeg with hsk | hfl | hnh
  · rcases hsk with hn | he
    · simp [subir_a_pinata, hn]
    · simp [subir_a_pinata, he]
  · obtain ⟨⟨j, hj, hjne⟩, e, herr⟩ := hfl
    simp [subir_a_pinata, hj, hjne, herr]
  · obtain ⟨⟨j, hj, hjne⟩, hok⟩ := hnh
    simp [subir_a_pinata, hj, hjne, hok]

/-- The upload step performs at most the one POST. -/
theorem subir_trace_cases (env : Env) (payload : List (String × JValue)) :
    (subir_a_pinata env payload).2 = [] ∨
      (subir_a_pinata env payload).2 = [Action.pinataUpload payload] := by
  unfold subir_a_pinata
  rcases env.pinataJwt with _ | j
  · exact Or.inl rfl
  · by_cases hj : j = ""
    · simp [hj]
    · rcases env.pinataHttp with e | mcid <;> simp [hj]

/-- After an attempted (configured) upload, the POST is in the trace. -/
theorem subir_trace_of_configured (env : Env) (j : String)
    (hj : env.pinataJwt = some j) (hjne : j ≠ "")
    (payload : List (String × JValue)) :
    (subir_a_pinata env payload).2 = [Action.pinataUpload payload] := by
  unfold subir_a_pinata
  rcases hhttp : env.pinataHttp with e | mcid <;> simp [hj, hjne, hhttp]

/-- Exhaustive outcome analysis of the chain section: either some stage
failed and the handler answers 500, or every stage succeeded and the 200
body carries exactly the cid that was passed in. -/
theorem chainSection_cases (env : Env) (d : JValue) (t10 h10 ts : ℤ)
    (cid : String) :
    (∃ m, (chainSection env d t10 h10 ts cid).1 = Response.serverError m) ∨
      (∃ txh blk, (chainSection env d t10 h10 ts cid).1
            = Response.ok txh blk cid ∧
          env.signResult = Except.ok () ∧ env.sendResult = Except.ok txh ∧
          env.receiptBlock = Except.ok blk) := by
  cases hn : env.nonce with
  | error e => exact Or.inl ⟨errDetail e, by simp [chainSection, hn]⟩
  | ok n =>
    cases hg : env.gasPrice with
    | error e => exact Or.inl ⟨errDetail e, by simp [chainSection, hn, hg]⟩
    | ok g =>
      cases habi : abiEncodeOk d t10 h10 ts with
      | false =>
          exact Or.inl ⟨errDetail "ABI encoding error",
            by simp [chainSection, hn, hg, habi]⟩
      | true =>
        cases hbe : env.buildExtra with
        | some e =>
            exact Or.inl ⟨errDetail e, by simp [chainSection, hn, hg, habi, hbe]⟩
        | none =>
          cases hs : env.signResult with
          | error e =>
              exact Or.inl ⟨errDetail e,
                by simp [chainSection, hn, hg, habi, hbe, hs]⟩
          | ok u =>
            cases u
            cases hsend : env.sendResult with
            | error e =>
                exact Or.inl ⟨errDetail e,
                  by simp [chainSection, hn, hg, habi, hbe, hs, hsend]⟩
            | ok txh =>
              cases hr : env.receiptBlock with
              | error e =>
                  exact Or.inl ⟨errDetail e,
                    by simp [chainSection, hn, hg, habi, hbe, hs, hsend, hr]⟩
              | ok blk =>
                  exact Or.inr ⟨txh, blk,
                    by simp [chainSection, hn, hg, habi, hbe, hs, hsend, hr],
                    rfl, rfl, rfl⟩

/-- When every chain interaction succeeds and the call arguments encode, the
chain section runs end to end. -/
theorem chainSection_all_ok (env : Env) (d : JValue) (t10 h10 ts : ℤ)
    (cid txh : String) (blk : ℕ) (hok : ChainAllOk env txh blk)
    (habi : abiEncodeOk d t10 h10 ts = true) :
    chainSection env d t10 h10 ts cid =
      (Response.ok txh blk cid,
        [Action.getNonce, Action.getGasPrice, Action.buildTx d t10 h10 ts,
          Action.signTx, Action.sendRawTx, Action.waitReceipt]) := by
  obtain ⟨⟨n, hn⟩, ⟨g, hg⟩, hbe, hs, hsend, hr⟩ := hok
  simp [chainSection, hn, hg, habi, hbe, hs, hsend, hr]

/-- The chain section depends only on the chain-side fields of the
environment. -/
theorem chainSection_congr (env₁ env₂ : Env) (d : JValue) (t10 h10 ts : ℤ)
    (cid : String)
    (hn : env₁.nonce = env₂.nonce) (hg : env₁.gasPrice = env₂.gasPrice)
    (hbe : env₁.buildExtra = env₂.buildExtra)
    (hs : env₁.signResult = env₂.signResult)
    (hsend : env₁.sendResult = env₂.sendResult)
    (hr : env₁.receiptBlock = env₂.receiptBlock) :
    chainSection env₁ d t10 h10 ts cid = chainSection env₂ d t10 h10 ts cid := by
  unfold chainSection
  rw [hn, hg, hbe, hs, hsend, hr]

/-- Bad input (a missing mandatory field or an unconvertible one) makes
`validate` fail. -/
theorem validate_error_of_bad (data : JObj)
    (hbad : lookupField data "temperature" = none ∨
      lookupField data "humidity" = none ∨
      lookupField data "timestamp_ms" = none ∨
      (∃ v, lookupField data "temperature" = some v ∧ pyFloat v = none) ∨
      (∃ v, lookupField data "humidity" = some v ∧ pyFloat v = none) ∨
      (∃ v, lookupField data "timestamp_ms" = some v ∧ pyInt v = none)) :
    ∃ e, validate data = Except.error e := by
  rcases htv : lookupField data "temperature" with _ | tv
  · exact ⟨"Campo temperature requerido", by simp [validate, htv]⟩
  rcases hhv : lookupField data "humidity" with _ | hv
  · exact ⟨"Campo humidity requerido", by simp [validate, htv, hhv]⟩
  rcases htsv : lookupField data "timestamp_ms" with _ | tsv
  · exact ⟨"Campo timestamp_ms requerido", by simp [validate, htv, hhv, htsv]⟩
  rcases hpt : pyFloat tv with _ | t
  · exact ⟨"Error en tipos de datos", by simp [validate, htv, hhv, htsv, hpt]⟩
  rcases hph : pyFloat hv with _ | h
  · exact ⟨"Error en tipos de datos",
      by simp [validate, htv, hhv, htsv, hpt, hph]⟩
  rcases hpts : pyInt tsv with _ | ts
  · exact ⟨"Error en tipos de datos",
      by simp [validate, htv, hhv, htsv, hpt, hph, hpts]⟩
  exfalso
  rcases hbad with hb | hb | hb | ⟨v, hv1, hv2⟩ | ⟨v, hv1, hv2⟩ | ⟨v, hv1, hv2⟩
  · rw [htv] at hb; cases hb
  · rw [hhv] at hb; cases hb
  · rw [htsv] at hb; cases hb
  · rw [htv] at hv1; cases hv1; rw [hpt] at hv2; cases hv2
  · rw [hhv] at hv1; cases hv1; rw [hph] at hv2; cases hv2
  · rw [htsv] at hv1; cases hv1; rw [hpts] at hv2; cases hv2

/-- Unfolding of the handler once validation has succeeded. -/
theorem recibir_lectura_ok_unfold (env : Env) (data : JObj) (d : JValue)
    (t h : Dec) (ts : ℤ)
    (hv : validate data = Except.ok (d, t, h, ts)) :
    recibir_lectura env data =
      ((chainSection env d (scaleTimes10 t) (scaleTimes10 h) ts
          ((subir_a_pinata env (pinataPayload d t h ts)).1.getD "")).1,
        (subir_a_pinata env (pinataPayload d t h ts)).2 ++
          (chainSection env d (scaleTimes10 t) (scaleTimes10 h) ts
            ((subir_a_pinata env (pinataPayload d t h ts)).1.getD "")).2) := by
  simp [recibir_lectura, hv]

/-- Claim C1: whenever the content-store upload is skipped (no credential)
or fails (network error or non-2xx), the pipeline still proceeds through
build, sign and broadcast, and the success response carries the empty string
as the content identifier; upload failure never causes the request to
fail. -/
theorem upload_failure_never_blocks_chain (env : Env) (data : JObj)
    (d : JValue) (t h : Dec) (ts : ℤ) (txh : String) (blk : ℕ)
    (hv : validate data = Except.ok (d, t, h, ts))
    (hup : UploadSkipped env ∨ UploadFailed env)
    (habi : abiEncodeOk d (scaleTimes10 t) (scaleTimes10 h) ts = true)
    (hok : ChainAllOk env txh blk) :
    (recibir_lectura env data).1 = Response.ok txh blk "" ∧
      ∃ pre, (recibir_lectura env data).2 = pre ++
        [Action.getNonce, Action.getGasPrice,
          Action.buildTx d (scaleTimes10 t) (scaleTimes10 h) ts,
          Action.signTx, Action.sendRawTx, Action.waitReceipt] := by
  have hcid : (subir_a_pinata env (pinataPayload d t h ts)).1 = none :=
    subir_fst_of_degraded env (hup.imp id Or.inl) _
  rw [recibir_lectura_ok_unfold env data d t h ts hv, hcid]
  simp only [Option.getD_none]
  rw [chainSection_all_ok env d (scaleTimes10 t) (scaleTimes10 h) ts ""
    txh blk hok habi]
  exact ⟨rfl, (subir_a_pinata env (pinataPayload d t h ts)).2, rfl⟩

/-- Witness for C1 at a concrete input: the upload fails with a network
error, yet the response is a 200 with an empty cid and the chain actions all
ran. -/
theorem upload_failure_never_blocks_chain_witness :
    validate dataGood = Except.ok (JValue.jstr "sensor-1", ⟨2345, 2⟩,
      ⟨602, 1⟩, 1700000000000) ∧
    (UploadSkipped envUploadFail ∨ UploadFailed envUploadFail) ∧
    abiEncodeOk (JValue.jstr "sensor-1") (scaleTimes10 ⟨2345, 2⟩)
      (scaleTimes10 ⟨602, 1⟩) 1700000000000 = true ∧
    ChainAllOk envUploadFail "0xabc" 42 ∧
    ((recibir_lectura envUploadFail dataGood).1 = Response.ok "0xabc" 42 "" ∧
      ∃ pre, (recibir_lectura envUploadFail dataGood).2 = pre ++
        [Action.getNonce, Action.getGasPrice,
          Action.buildTx (JValue.jstr "sensor-1") (scaleTimes10 ⟨2345, 2⟩)
            (scaleTimes10 ⟨602, 1⟩) 1700000000000,
          Action.signTx, Action.sendRawTx, Action.waitReceipt]) :=
  ⟨by decide,
    Or.inr ⟨⟨"jwt", rfl, by decide⟩, "network down", rfl⟩,
    by decide,
    ⟨⟨5, rfl⟩, ⟨7, rfl⟩, rfl, rfl, rfl, rfl⟩,
    upload_failure_never_blocks_chain envUploadFail dataGood
      (JValue.jstr "sensor-1") ⟨2345, 2⟩ ⟨602, 1⟩ 1700000000000 "0xabc" 42
      (by decide)
      (Or.inr ⟨⟨"jwt", rfl, by decide⟩, "network down", rfl⟩)
      (by decide)
      ⟨⟨5, rfl⟩, ⟨7, rfl⟩, rfl, rfl, rfl, rfl⟩⟩

/-- Claim C2: a body missing temperature, humidity or timestamp_ms, or in
which one of them does not convert to its numeric type, yields a 400 and an
empty action trace: no content-store upload and no chain interaction of any
kind. -/
theorem invalid_input_no_side_effects (env : Env) (data : JObj)
    (hbad : lookupField data "temperature" = none ∨
      lookupField data "humidity" = none ∨
      lookupField data "timestamp_ms" = none ∨
      (∃ v, lookupField data "temperature" = some v ∧ pyFloat v = none) ∨
      (∃ v, lookupField data "humidity" = some v ∧ pyFloat v = none) ∨
      (∃ v, lookupField data "timestamp_ms" = some v ∧ pyInt v = none)) :
    ∃ e, recibir_lectura env data = (Response.clientError e, []) := by
  obtain ⟨e, he⟩ := validate_error_of_bad data hbad
  exact ⟨e, by simp [recibir_lectura, he]⟩

/-- Witness for C2 at a concrete input: temperature missing entirely. -/
theorem invalid_input_no_side_effects_witness :
    (lookupField dataMissingTemp "temperature" = none ∨
      lookupField dataMissingTemp "humidity" = none ∨
      lookupField dataMissingTemp "timestamp_ms" = none ∨
      (∃ v, lookupField dataMissingTemp "temperature" = some v ∧
        pyFloat v = none) ∨
      (∃ v, lookupField dataMissingTemp "humidity" = some v ∧
        pyFloat v = none) ∨
      (∃ v, lookupField dataMissingTemp "timestamp_ms" = some v ∧
        pyInt v = none)) ∧
    ∃ e, recibir_lectura envAllOk dataMissingTemp =
      (Response.clientError e, []) :=
  ⟨Or.inl (by decide),
    invalid_input_no_side_effects envAllOk dataMissingTemp
      (Or.inl (by decide))⟩

/-- Claim C4: when the nonce fetch RPC fails, the handler answers 500 and
neither a signing nor a broadcast action ever occurs. -/
theorem nonce_failure_aborts_before_signing (env : Env) (data : JObj)
    (d : JValue) (t h : Dec) (ts : ℤ) (e : String)
    (hv : validate data = Except.ok (d, t, h, ts))
    (hn : env.nonce = Except.error e) :
    (recibir_lectura env data).1 = Response.serverError (errDetail e) ∧
      Action.signTx ∉ (recibir_lectura env data).2 ∧
      Action.sendRawTx ∉ (recibir_lectura env data).2 := by
  rw [recibir_lectura_ok_unfold env data d t h ts hv]
  have hch : chainSection env d (scaleTimes10 t) (scaleTimes10 h) ts
      ((subir_a_pinata env (pinataPayload d t h ts)).1.getD "") =
      (Response.serverError (errDetail e), [Action.getNonce]) := by
    simp [chainSection, hn]
  rw [hch]
  refine ⟨rfl, ?_, ?_⟩ <;>
    rcases subir_trace_cases env (pinataPayload d t h ts) with hup | hup <;>
      simp [hup]

/-- Witness for C4 at a concrete input: the nonce RPC is down. -/
theorem nonce_failure_aborts_before_signing_witness :
    validate dataGood = Except.ok (JValue.jstr "sensor-1", ⟨2345, 2⟩,
      ⟨602, 1⟩, 1700000000000) ∧
    envNonceFail.nonce = Except.error "rpc down" ∧
    ((recibir_lectura envNonceFail dataGood).1 =
        Response.serverError (errDetail "rpc down") ∧
      Action.signTx ∉ (recibir_lectura envNonceFail dataGood).2 ∧
      Action.sendRawTx ∉ (recibir_lectura envNonceFail dataGood).2) :=
  ⟨by decide, rfl,
    nonce_failure_aborts_before_signing envNonceFail dataGood
      (JValue.jstr "sensor-1") ⟨2345, 2⟩ ⟨602, 1⟩ 1700000000000 "rpc down"
      (by decide) rfl⟩

/-- Claim C5: when signing, broadcasting or waiting for the receipt fails,
the handler answers 500 with a descriptive detail, and no 200 body (hence no
tx_hash) is ever returned to the caller. -/
theorem chain_failure_yields_server_error (env : Env) (data : JObj)
    (d : JValue) (t h : Dec) (ts : ℤ)
    (hv : validate data = Except.ok (d, t, h, ts))
    (hfail : (∃ e, env.signResult = Except.error e) ∨
      (∃ e, env.sendResult = Except.error e) ∨
      (∃ e, env.receiptBlock = Except.error e)) :
    (∃ m, (recibir_lectura env data).1 = Response.serverError m) ∧
      ∀ txh blk c, (recibir_lectura env data).1 ≠ Response.ok txh blk c := by
  rw [recibir_lectura_ok_unfold env data d t h ts hv]
  rcases chainSection_cases env d (scaleTimes10 t) (scaleTimes10 h) ts
      ((subir_a_pinata env (pinataPayload d t h ts)).1.getD "") with
    ⟨m, hm⟩ | ⟨txh, blk, hok, hs, hsend, hr⟩
  · refine ⟨⟨m, hm⟩, ?_⟩
    intro txh blk c hc
    rw [hm] at hc
    exact Response.noConfusion hc
  · exfalso
    rcases hfail with ⟨e, he⟩ | ⟨e, he⟩ | ⟨e, he⟩
    · rw [he] at hs; exact Except.noConfusion hs
    · rw [he] at hsend; exact Except.noConfusion hsend
    · rw [he] at hr; exact Except.noConfusion hr

/-- Witness for C5 at a concrete input: the node rejects the broadcast. -/
theorem chain_failure_yields_server_error_witness :
    validate dataGood = Except.ok (JValue.jstr "sensor-1", ⟨2345, 2⟩,
      ⟨602, 1⟩, 1700000000000) ∧
    envSendFail.sendResult = Except.error "nonce collision" ∧
    ((∃ m, (recibir_lectura envSendFail dataGood).1 =
        Response.serverError m) ∧
      ∀ txh blk c, (recibir_lectura envSendFail dataGood).1 ≠
        Response.ok txh blk c) :=
  ⟨by decide, rfl,
    chain_failure_yields_server_error envSendFail dataGood
      (JValue.jstr "sensor-1") ⟨2345, 2⟩ ⟨602, 1⟩ 1700000000000
      (by decide) (Or.inr (Or.inl ⟨"nonce collision", rfl⟩))⟩

/-- Counterexample to claim C3 as stated: for temperature 5000.0 the scaled
value 50000 does not fit int16, yet the scaling step of lines 120-121 raises
no range or validation error; the out-of-range value is passed onward (it
reaches the transaction-build call in the trace) and the request ends in a
500 from the external encoder, not a 400. -/
theorem scaling_step_does_not_range_check :
    scaleTimes10 ⟨5000, 0⟩ = 50000 ∧
    int16Ok 50000 = false ∧
    validate dataHotTemp =
      Except.ok (JValue.jstr "unknown-device", ⟨5000, 0⟩, ⟨50, 0⟩, 1) ∧
    (∀ m, (recibir_lectura envAllOk dataHotTemp).1 ≠
      Response.clientError m) ∧
    Action.buildTx (JValue.jstr "unknown-device") 50000 500 1 ∈
      (recibir_lectura envAllOk dataHotTemp).2 := by
  refine ⟨by decide, by decide, by decide, ?_, by decide⟩
  have hres : (recibir_lectura envAllOk dataHotTemp).1 =
      Response.serverError (errDetail "ABI encoding error") := by decide
  intro m hm
  rw [hres] at hm
  exact Response.noConfusion hm

/-- Amended claim C3: the scaling step performs no range check; a scaled
temperature outside int16 or a scaled humidity outside uint16 is passed
onward to the transaction-build step, where the external ABI encoder rejects
it, surfacing as a 500 server error rather than a 400 validation error. -/
theorem scaling_overflow_surfaces_as_server_error (env : Env) (data : JObj)
    (d : JValue) (t h : Dec) (ts : ℤ) (n g : ℕ)
    (hv : validate data = Except.ok (d, t, h, ts))
    (hn : env.nonce = Except.ok n) (hg : env.gasPrice = Except.ok g)
    (hover : int16Ok (scaleTimes10 t) = false ∨
      uint16Ok (scaleTimes10 h) = false) :
    (recibir_lectura env data).1 =
        Response.serverError (errDetail "ABI encoding error") ∧
      Action.buildTx d (scaleTimes10 t) (scaleTimes10 h) ts ∈
        (recibir_lectura env data).2 ∧
      ∀ m, (recibir_lectura env data).1 ≠ Response.clientError m := by
  have habi : abiEncodeOk d (scaleTimes10 t) (scaleTimes10 h) ts = false := by
    rcases hover with hx | hx <;> simp [abiEncodeOk, hx]
  rw [recibir_lectura_ok_unfold env data d t h ts hv]
  have hch : chainSection env d (scaleTimes10 t) (scaleTimes10 h) ts
      ((subir_a_pinata env (pinataPayload d t h ts)).1.getD "") =
      (Response.serverError (errDetail "ABI encoding error"),
        [Action.getNonce, Action.getGasPrice,
          Action.buildTx d (scaleTimes10 t) (scaleTimes10 h) ts]) := by
    simp [chainSection, hn, hg, habi]
  rw [hch]
  refine ⟨rfl, ?_, ?_⟩
  · rcases subir_trace_cases env (pinataPayload d t h ts) with hu | hu <;>
      simp [hu]
  · intro m hm
    exact Response.noConfusion hm

/-- Witness for the amended C3 at the concrete out-of-range input. -/
theorem scaling_overflow_surfaces_as_server_error_witness :
    validate dataHotTemp =
      Except.ok (JValue.jstr "unknown-device", ⟨5000, 0⟩, ⟨50, 0⟩, 1) ∧
    envAllOk.nonce = Except.ok 5 ∧ envAllOk.gasPrice = Except.ok 7 ∧
    int16Ok (scaleTimes10 ⟨5000, 0⟩) = false ∧
    ((recibir_lectura envAllOk dataHotTemp).1 =
        Response.serverError (errDetail "ABI encoding error") ∧
      Action.buildTx (JValue.jstr "unknown-device") (scaleTimes10 ⟨5000, 0⟩)
          (scaleTimes10 ⟨50, 0⟩) 1 ∈ (recibir_lectura envAllOk dataHotTemp).2 ∧
      ∀ m, (recibir_lectura envAllOk dataHotTemp).1 ≠
        Response.clientError m) :=
  ⟨by decide, rfl, rfl, by decide,
    scaling_overflow_surfaces_as_server_error envAllOk dataHotTemp
      (JValue.jstr "unknown-device") ⟨5000, 0⟩ ⟨50, 0⟩ 1 5 7
      (by decide) rfl rfl (Or.inl (by decide))⟩

/-- The shift-rounding computes the banker's rounding of `n / 2 ^ s`. -/
theorem rshiftHalfEven_isHalfEvenRound (n : ℤ) (s : ℕ) :
    IsHalfEvenRound ((n : ℚ) / (2 : ℚ) ^ s) (rshiftHalfEven n s) := by
  have hp : (0 : ℤ) < (2 : ℤ) ^ s := pow_pos (by norm_num) s
  have hsum : (2 : ℤ) ^ s * Int.fdiv n ((2 : ℤ) ^ s)
      + Int.fmod n ((2 : ℤ) ^ s) = n := Int.fdiv_add_fmod n _
  have hr0 : 0 ≤ Int.fmod n ((2 : ℤ) ^ s) := by
    rw [Int.fmod_eq_emod n hp.le]
    exact Int.emod_nonneg n (by positivity)
  have hrp : Int.fmod n ((2 : ℤ) ^ s) < (2 : ℤ) ^ s := Int.fmod_lt_of_pos n hp
  have hpq : (0 : ℚ) < (((2 : ℤ) ^ s : ℤ) : ℚ) := by exact_mod_cast hp
  have hx : (n : ℚ) / (2 : ℚ) ^ s = ((Int.fdiv n ((2 : ℤ) ^ s) : ℤ) : ℚ)
      + ((Int.fmod n ((2 : ℤ) ^ s) : ℤ) : ℚ) / (((2 : ℤ) ^ s : ℤ) : ℚ) := by
    have h2 : ((2 : ℚ)) ^ s = (((2 : ℤ) ^ s : ℤ) : ℚ) := by push_cast; ring
    rw [h2, div_eq_iff (ne_of_gt hpq), add_mul,
      div_mul_cancel₀ _ (ne_of_gt hpq)]
    have h3 : (((2 : ℤ) ^ s : ℤ) : ℚ) * ((Int.fdiv n ((2 : ℤ) ^ s) : ℤ) : ℚ)
        + ((Int.fmod n ((2 : ℤ) ^ s) : ℤ) : ℚ) = (n : ℚ) := by
      exact_mod_cast hsum
    linarith
  simp only [rshiftHalfEven]
  exact isHalfEvenRound_branches _ _ _ _ hp hr0 hrp hx

/-- Python round on a double value computes its banker's rounding. -/
theorem pyRoundDy_isHalfEvenRound (x : Dy) :
    IsHalfEvenRound x.toRat (pyRoundDy x) :=
  rshiftHalfEven_isHalfEvenRound x.m x.e

/-- Bridge from an integer inequality to a scaled distance bound between two
fractions. -/
theorem abs_div_sub_div_mul_lt_one (a b c d k : ℤ)
    (hb : (0 : ℤ) < b) (hd : (0 : ℤ) < d)
    (h : k * |a * d - b * c| < b * d) :
    |(a : ℚ) / (b : ℚ) - (c : ℚ) / (d : ℚ)| * (k : ℚ) < 1 := by
  have hbq : (0 : ℚ) < (b : ℚ) := by exact_mod_cast hb
  have hdq : (0 : ℚ) < (d : ℚ) := by exact_mod_cast hd
  rw [div_sub_div _ _ (ne_of_gt hbq) (ne_of_gt hdq), abs_div,
    abs_of_pos (mul_pos hbq hdq), div_mul_eq_mul_div,
    div_lt_one (mul_pos hbq hdq)]
  have h2 : ((k * |a * d - b * c| : ℤ) : ℚ) < ((b * d : ℤ) : ℚ) := by
    exact_mod_cast h
  push_cast at h2
  linarith [h2]

/-- Bridge: the distance from a fraction to an integer exceeds one half when
twice the numerator distance exceeds the denominator. -/
theorem half_lt_abs_div_sub_int (a b c : ℤ) (hb : (0 : ℤ) < b)
    (h : b < 2 * |a - c * b|) :
    1 / 2 < |(a : ℚ) / (b : ℚ) - (c : ℚ)| := by
  have hbq : (0 : ℚ) < (b : ℚ) := by exact_mod_cast hb
  have hsub : (a : ℚ) / (b : ℚ) - (c : ℚ) = ((a : ℚ) - c * b) / b := by
    field_simp
    ring
  rw [hsub, abs_div, abs_of_pos hbq, lt_div_iff₀ hbq]
  have h2 : ((b : ℤ) : ℚ) < ((2 * |a - c * b| : ℤ) : ℚ) := by exact_mod_cast h
  push_cast at h2
  linarith [h2]

/-- Counterexample to claim C6 as stated: the in-range wire decimal
t = 327.05000000000001 parses (the float call of line 113) to the double
5753524445826253 / 2 ^ 44 — the same double as 327.05 — whose binary64
product with ten is exactly 3270.5, so the scaler of lines 120-121 produces
3270; but 3270 lies at distance strictly greater than one half from the
exact t * 10 = 3270.5000000000001, so it is not round(t * 10) under
round-half-away-from-zero, banker's rounding, or any other round-to-nearest
rule (each yields 3271, the value the exact-decimal scaler model computes). -/
theorem scaler_binary64_violates_exact_round :
    StrictNearestDouble (Dec.toRat wireDecimalC6) doubleC6 ∧
    scaleTimes10B64 doubleC6 = 3270 ∧
    int16Ok 3270 = true ∧ int16Ok 3271 = true ∧
    1 / 2 < |Dec.toRat wireDecimalC6 * 10 - ((3270 : ℤ) : ℚ)| ∧
    scaleTimes10 wireDecimalC6 = 3271 := by
  refine ⟨⟨by decide, by decide, ?_⟩, by decide, by decide, by decide, ?_,
    by decide⟩
  · have h1 : Dec.toRat wireDecimalC6 =
        ((32705000000000001 : ℤ) : ℚ) / (((10 : ℤ) ^ 14 : ℤ) : ℚ) := by
      unfold Dec.toRat wireDecimalC6
      norm_num
    have h2 : Dy.toRat doubleC6 =
        ((5753524445826253 : ℤ) : ℚ) / (((2 : ℤ) ^ 44 : ℤ) : ℚ) := by
      unfold Dy.toRat doubleC6
      norm_num
    have h3 : ((2 : ℚ)) ^ (doubleC6.e + 1) = (((2 : ℤ) ^ 45 : ℤ) : ℚ) := by
      norm_num [doubleC6]
    rw [h1, h2, h3]
    exact abs_div_sub_div_mul_lt_one 32705000000000001 (10 ^ 14)
      5753524445826253 (2 ^ 44) (2 ^ 45) (by decide) (by decide) (by decide)
  · have h1 : Dec.toRat wireDecimalC6 * 10 =
        ((32705000000000001 : ℤ) : ℚ) / (((10 : ℤ) ^ 13 : ℤ) : ℚ) := by
      unfold Dec.toRat wireDecimalC6
      push_cast
      ring_nf
    rw [h1]
    exact half_lt_abs_div_sub_int 32705000000000001 (10 ^ 13) 3270
      (by decide) (by decide)

/-- Amended claim C6: for every double value x, the scaler of lines 120-121
produces exactly the rounding of the binary64 product x * 10 under one fixed
rule — banker's rounding (round half to even), the rule of Python's builtin
round — with no side effects; the binary64 product itself is the exact
product significand rounded to 53-bit precision under the same ties-to-even
rule, so the fixed rule applies to the floating-point product, not to the
exact decimal value written on the wire. -/
theorem scaler_banker_rounds_float_product (x : Dy) :
    IsHalfEvenRound (b64MulTen x).toRat (scaleTimes10B64 x) ∧
    ∃ s, (s = 3 ∨ s = 4) ∧ (b64MulTen x).e = x.e - s ∧
      IsHalfEvenRound (((x.m * 10 : ℤ) : ℚ) / (2 : ℚ) ^ s)
        ((b64MulTen x).m) := by
  constructor
  · exact pyRoundDy_isHalfEvenRound (b64MulTen x)
  · by_cases hn : (x.m * 10).natAbs < 2 ^ 56
    · have hb : b64MulTen x = ⟨rshiftHalfEven (x.m * 10) 3, x.e - 3⟩ := by
        unfold b64MulTen
        rw [if_pos hn]
      refine ⟨3, Or.inl rfl, by rw [hb], ?_⟩
      rw [hb]
      exact rshiftHalfEven_isHalfEvenRound (x.m * 10) 3
    · have hb : b64MulTen x = ⟨rshiftHalfEven (x.m * 10) 4, x.e - 4⟩ := by
        unfold b64MulTen
        rw [if_neg hn]
      refine ⟨4, Or.inr rfl, by rw [hb], ?_⟩
      rw [hb]
      exact rshiftHalfEven_isHalfEvenRound (x.m * 10) 4

/-- Claim C7: the end-to-end scenario input with the content store
returning "bafy123" and the chain returning hash "0xabc" in block 42
yields exactly the 200 body with status ok, that hash, that block and that
cid. -/
theorem end_to_end_success_response :
    (recibir_lectura envAllOk dataGood).1 =
      Response.ok "0xabc" 42 "bafy123" := by decide

/-- Claim C8: a timestamp_ms supplied as the non-integer JSON number 1700.5
is accepted and silently truncated toward zero to 1700, while the same value
supplied as the string "1700.5" is rejected with a 400 validation failure
before any action runs. -/
theorem timestamp_number_truncated_string_rejected :
    validate dataFloatTs =
      Except.ok (JValue.jstr "unknown-device", ⟨20, 0⟩, ⟨50, 0⟩, 1700) ∧
    (recibir_lectura envAllOk dataFloatTs).1 =
      Response.ok "0xabc" 42 "bafy123" ∧
    recibir_lectura envAllOk dataStrTs =
      (Response.clientError "Error en tipos de datos", []) := by decide

/-- Claim C9: a skipped upload (no credential), a failed upload, and a 2xx
upload whose body lacks the IpfsHash field produce identical responses
whenever the chain-side outcomes agree, and any success response among them
carries the empty cid: the response does not distinguish the three
situations. -/
theorem cid_empty_three_ways_indistinguishable (env₁ env₂ : Env)
    (data : JObj) (d : JValue) (t h : Dec) (ts : ℤ)
    (hv : validate data = Except.ok (d, t, h, ts))
    (h₁ : UploadDegraded env₁) (h₂ : UploadDegraded env₂)
    (hn : env₁.nonce = env₂.nonce) (hg : env₁.gasPrice = env₂.gasPrice)
    (hbe : env₁.buildExtra = env₂.buildExtra)
    (hs : env₁.signResult = env₂.signResult)
    (hsend : env₁.sendResult = env₂.sendResult)
    (hr : env₁.receiptBlock = env₂.receiptBlock) :
    (recibir_lectura env₁ data).1 = (recibir_lectura env₂ data).1 ∧
      ∀ txh blk c, (recibir_lectura env₁ data).1 = Response.ok txh blk c →
        c = "" := by
  rw [recibir_lectura_ok_unfold env₁ data d t h ts hv,
    recibir_lectura_ok_unfold env₂ data d t h ts hv,
    subir_fst_of_degraded env₁ h₁ (pinataPayload d t h ts),
    subir_fst_of_degraded env₂ h₂ (pinataPayload d t h ts)]
  simp only [Option.getD_none]
  rw [chainSection_congr env₁ env₂ d (scaleTimes10 t) (scaleTimes10 h) ts ""
    hn hg hbe hs hsend hr]
  refine ⟨rfl, ?_⟩
  intro txh blk c hc
  rcases chainSection_cases env₂ d (scaleTimes10 t) (scaleTimes10 h) ts ""
    with ⟨m, hm⟩ | ⟨txh2, blk2, hok, h1, h2, h3⟩
  · rw [hm] at hc
    exact Response.noConfusion hc
  · rw [hok] at hc
    injection hc with e1 e2 e3
    exact e3.symm

/-- Witness for C9 at concrete inputs: credential missing versus network
failure versus missing IpfsHash field, over the same successful chain. -/
theorem cid_empty_three_ways_indistinguishable_witness :
    validate dataGood = Except.ok (JValue.jstr "sensor-1", ⟨2345, 2⟩,
      ⟨602, 1⟩, 1700000000000) ∧
    UploadDegraded envNoJwt ∧ UploadDegraded envUploadFail ∧
    UploadDegraded envNoHash ∧
    (recibir_lectura envNoJwt dataGood).1 =
      (recibir_lectura envUploadFail dataGood).1 ∧
    (recibir_lectura envNoJwt dataGood).1 =
      (recibir_lectura envNoHash dataGood).1 ∧
    ∀ txh blk c, (recibir_lectura envNoJwt dataGood).1 =
      Response.ok txh blk c → c = "" :=
  ⟨by decide,
    Or.inl (Or.inl rfl),
    Or.inr (Or.inl ⟨⟨"jwt", rfl, by decide⟩, "network down", rfl⟩),
    Or.inr (Or.inr ⟨⟨"jwt", rfl, by decide⟩, rfl⟩),
    (cid_empty_three_ways_indistinguishable envNoJwt envUploadFail dataGood
      (JValue.jstr "sensor-1") ⟨2345, 2⟩ ⟨602, 1⟩ 1700000000000 (by decide)
      (Or.inl (Or.inl rfl))
      (Or.inr (Or.inl ⟨⟨"jwt", rfl, by decide⟩, "network down", rfl⟩))
      rfl rfl rfl rfl rfl rfl).1,
    (cid_empty_three_ways_indistinguishable envNoJwt envNoHash dataGood
      (JValue.jstr "sensor-1") ⟨2345, 2⟩ ⟨602, 1⟩ 1700000000000 (by decide)
      (Or.inl (Or.inl rfl))
      (Or.inr (Or.inr ⟨⟨"jwt", rfl, by decide⟩, rfl⟩))
      rfl rfl rfl rfl rfl rfl).1,
    (cid_empty_three_ways_indistinguishable envNoJwt envUploadFail dataGood
      (JValue.jstr "sensor-1") ⟨2345, 2⟩ ⟨602, 1⟩ 1700000000000 (by decide)
      (Or.inl (Or.inl rfl))
      (Or.inr (Or.inl ⟨⟨"jwt", rfl, by decide⟩, "network down", rfl⟩))
      rfl rfl rfl rfl rfl rfl).2⟩

/-- Claim C10: device_id is never validated: any JSON value under it passes
validation and is forwarded unchanged into both the upload payload and the
storeReading call arguments, so a non-string device_id fails only at the
chain-interaction stage as a 500, never as a 400 validation error. -/
theorem device_id_never_validated (env : Env) (data : JObj)
    (v tv hvv tsv : JValue) (t h : Dec) (ts : ℤ) (j : String) (n g : ℕ)
    (hdev : lookupField data "device_id" = some v)
    (htv : lookupField data "temperature" = some tv)
    (hpt : pyFloat tv = some t)
    (hhv : lookupField data "humidity" = some hvv)
    (hph : pyFloat hvv = some h)
    (htsv : lookupField data "timestamp_ms" = some tsv)
    (hpts : pyInt tsv = some ts)
    (hjwt : env.pinataJwt = some j) (hjne : j ≠ "")
    (hn : env.nonce = Except.ok n) (hg : env.gasPrice = Except.ok g)
    (hnotstr : ∀ s, v ≠ JValue.jstr s) :
    validate data = Except.ok (v, t, h, ts) ∧
      Action.pinataUpload (pinataPayload v t h ts) ∈
        (recibir_lectura env data).2 ∧
      Action.buildTx v (scaleTimes10 t) (scaleTimes10 h) ts ∈
        (recibir_lectura env data).2 ∧
      (recibir_lectura env data).1 =
        Response.serverError (errDetail "ABI encoding error") ∧
      ∀ m, (recibir_lectura env data).1 ≠ Response.clientError m := by
  have hval : validate data = Except.ok (v, t, h, ts) := by
    simp [validate, hdev, htv, hhv, htsv, hpt, hph, hpts]
  have habi : abiEncodeOk v (scaleTimes10 t) (scaleTimes10 h) ts = false := by
    cases v with
    | jstr s => exact absurd rfl (hnotstr s)
    | jint m => simp [abiEncodeOk]
    | jfloat d => simp [abiEncodeOk]
    | jbool b => simp [abiEncodeOk]
    | jnull => simp [abiEncodeOk]
    | jobj => simp [abiEncodeOk]
    | jarr => simp [abiEncodeOk]
  have hch : chainSection env v (scaleTimes10 t) (scaleTimes10 h) ts
      ((subir_a_pinata env (pinataPayload v t h ts)).1.getD "") =
      (Response.serverError (errDetail "ABI encoding error"),
        [Action.getNonce, Action.getGasPrice,
          Action.buildTx v (scaleTimes10 t) (scaleTimes10 h) ts]) := by
    simp [chainSection, hn, hg, habi]
  have hup := subir_trace_of_configured env j hjwt hjne (pinataPayload v t h ts)
  rw [recibir_lectura_ok_unfold env data v t h ts hval, hch, hup]
  refine ⟨hval, by simp, by simp, rfl, ?_⟩
  intro m hm
  exact Response.noConfusion hm

/-- Witness for C10 at a concrete input: device_id is the JSON number 7. -/
theorem device_id_never_validated_witness :
    lookupField dataNumDevice "device_id" = some (JValue.jint 7) ∧
    envAllOk.pinataJwt = some "jwt" ∧
    (∀ s, JValue.jint 7 ≠ JValue.jstr s) ∧
    (validate dataNumDevice = Except.ok (JValue.jint 7, ⟨20, 0⟩, ⟨50, 0⟩, 3) ∧
      Action.pinataUpload (pinataPayload (JValue.jint 7) ⟨20, 0⟩ ⟨50, 0⟩ 3) ∈
        (recibir_lectura envAllOk dataNumDevice).2 ∧
      Action.buildTx (JValue.jint 7) (scaleTimes10 ⟨20, 0⟩)
          (scaleTimes10 ⟨50, 0⟩) 3 ∈
        (recibir_lectura envAllOk dataNumDevice).2 ∧
      (recibir_lectura envAllOk dataNumDevice).1 =
        Response.serverError (errDetail "ABI encoding error") ∧
      ∀ m, (recibir_lectura envAllOk dataNumDevice).1 ≠
        Response.clientError m) :=
  ⟨by decide, rfl, fun s hcontra => JValue.noConfusion hcontra,
    device_id_never_validated envAllOk dataNumDevice
      (JValue.jint 7) (JValue.jint 20) (JValue.jint 50) (JValue.jint 3)
      ⟨20, 0⟩ ⟨50, 0⟩ 3 "jwt" 5 7
      (by decide) (by decide) (by decide) (by decide) (by decide)
      (by decide) (by decide) rfl (by decide) rfl rfl
      (fun s hcontra => JValue.noConfusion hcontra)⟩

end Relayer
